import Mathlib

/-!
Shallow embedding of the Blum game client (`src/utils/blum.py`).

The client is a session-bound HTTP wrapper: every operation issues one or
two requests against a scripted service, reads the JSON body or raw text of
the response, and either returns extracted values or raises a Python
exception.  We model:

  * JSON values (the result of `await resp.json()`) as the inductive `JVal`;
    a Python `None` is `JVal.jnull` (aiohttp parses JSON `null` to `None`).
  * an HTTP response as its integer status, parsed JSON body and raw text;
  * Python exceptions (`TypeError`, `AttributeError` and the two business
    errors `RefCodeError`, `AccountUsedError`) as the `PyExc` error type of
    an `Except` result;
  * the mutable per-session state (the `Authorization` default header of the
    shared `aiohttp` session and `self.refresh_token`) as `SessionState`;
  * the `play_game` loop as a fuel-free recursion over a script of
    per-iteration service behaviours (`PassEvent`), returning `none` when
    the script is exhausted with the loop still running.

JSON numbers are modelled as integers: every field the client does
arithmetic on (`timestamp`, `startTime`, `endTime`) is a millisecond epoch
timestamp, and `int(x/1000)` in Python truncates the exact quotient toward
zero for these magnitudes, which is `Int.tdiv x 1000`.
-/

inductive JVal where
  | jnull : JVal
  | jbool : Bool → JVal
  | jnum : Int → JVal
  | jstr : String → JVal
  | jarr : List JVal → JVal
  | jobj : List (String × JVal) → JVal
deriving Repr

/-- Python exceptions that the modelled code can raise. -/
inductive PyExc where
  | typeError : PyExc
  | attributeError : PyExc
  | refCodeError : PyExc
  | accountUsedError : PyExc
deriving Repr, DecidableEq

/-- An HTTP response as the client observes it: `resp.status`, the parsed
JSON body (`await resp.json()`), and the raw text (`await resp.text()`). -/
structure HttpResponse where
  status : Nat
  body : JVal
  text : String

/-- Field lookup in a JSON object; `none` when the key is absent. -/
def jlookup (fields : List (String × JVal)) (k : String) : Option JVal :=
  match fields with
  | [] => none
  | (k', v) :: rest => if k' = k then some v else jlookup rest k

/-- Python `d.get(k)`: returns the value (or `None` when absent) if `d` is a
dict, and raises `AttributeError` otherwise. -/
def pyGet (v : JVal) (k : String) : Except PyExc JVal :=
  match v with
  | JVal.jobj fields =>
    match jlookup fields k with
    | some w => Except.ok w
    | none => Except.ok JVal.jnull
  | _ => Except.error PyExc.attributeError

/-- Python `k in d` for a dict body (membership test used by `start_game`). -/
def jhas (v : JVal) (k : String) : Bool :=
  match v with
  | JVal.jobj fields => (jlookup fields k).isSome
  | _ => false

/-- Python truthiness of a JSON-shaped value. -/
def pyTruthy : JVal → Bool
  | JVal.jnull => false
  | JVal.jbool b => b
  | JVal.jnum n => !(n == 0)
  | JVal.jstr s => !(s == "")
  | JVal.jarr xs => !xs.isEmpty
  | JVal.jobj fields => !fields.isEmpty

/-- Python `v == s` where `s` is a string literal. -/
def pyEqStr (v : JVal) (s : String) : Bool :=
  match v with
  | JVal.jstr s' => s' == s
  | _ => false

/-- Python `int(x / 1000)` for an integer millisecond value `x`: exact
division followed by truncation toward zero. -/
def pyIntDivMs (x : Int) : Int := Int.tdiv x 1000

/-- Python `int(v / 1000)` applied to an arbitrary JSON value `v`: integers
divide, booleans coerce to 0 or 1 (so the quotient truncates to 0), and
every other non-null value raises `TypeError`.  Returns `none` exactly when
the source skipped the division because the value was `None`. -/
def msToSecOpt : JVal → Except PyExc (Option Int)
  | JVal.jnull => Except.ok none
  | JVal.jnum t => Except.ok (some (pyIntDivMs t))
  | JVal.jbool _ => Except.ok (some 0)
  | _ => Except.error PyExc.typeError

/-- Mutable per-session state: the `Authorization` default header of the
shared `aiohttp` session (absent before first login) and
`self.refresh_token` (initialised to the empty string, later overwritten by
whatever JSON value `token.refresh` held). -/
structure SessionState where
  authHeader : Option String
  refresh_token : JVal
deriving Repr

/-- Substring search over character lists (Python `needle in hay`). -/
def charsStartWith : List Char → List Char → Bool
  | [], _ => true
  | _ :: _, [] => false
  | a :: as, b :: bs => a == b && charsStartWith as bs

/-- Whether `needle` occurs as a contiguous run inside `hay`. -/
def charsContain (needle : List Char) : List Char → Bool
  | [] => charsStartWith needle []
  | c :: rest => charsStartWith needle (c :: rest) || charsContain needle rest

/-- Python `needle in hay` on strings. -/
def strContains (hay needle : String) : Bool :=
  charsContain needle.toList hay.toList

namespace BlumBot

/-- Embeds `get_tasks`: returns the parsed body when it is a JSON list and
the empty list otherwise (the logged fallback branch). -/
def get_tasks (r : HttpResponse) : List JVal :=
  match r.body with
  | JVal.jarr tasks => tasks
  | _ => []

/-- Embeds `start_game`: the `gameId` field when present, else the `message`
field when present, else Python `None` (the implicit fall-through). -/
def start_game (r : HttpResponse) : JVal :=
  if jhas r.body "gameId" then
    match pyGet r.body "gameId" with
    | Except.ok v => v
    | Except.error _ => JVal.jnull
  else if jhas r.body "message" then
    match pyGet r.body "message" with
    | Except.ok v => v
    | Except.error _ => JVal.jnull
  else JVal.jnull

/-- Embeds `claim_game`: POST the claim; on non-200 status sleep 1s and POST
once more; the final response's text decides the message (`True` for the
literal `"OK"`, the raw text otherwise).  `r1` is the first response, `r2`
the response to the retry (consumed only on non-200), `pts` the
pre-drawn random point amount.  The second component counts HTTP requests
issued. -/
def claim_game (pts : Int) (r1 r2 : HttpResponse) : (JVal × Int) × Nat :=
  let (resp, reqs) := if r1.status ≠ 200 then (r2, 2) else (r1, 1)
  let txt := resp.text
  ((if txt == "OK" then JVal.jbool true else JVal.jstr txt, pts), reqs)

/-- Field extraction performed by `claim` (farming) on its final response:
`int(resp_json.get("timestamp")/1000)` and `resp_json.get("availableBalance")`. -/
def claimExtract (resp : HttpResponse) : Except PyExc (Int × JVal) :=
  match pyGet resp.body "timestamp" with
  | Except.error e => Except.error e
  | Except.ok (JVal.jnum t) =>
    match pyGet resp.body "availableBalance" with
    | Except.error e => Except.error e
    | Except.ok bal => Except.ok (pyIntDivMs t, bal)
  | Except.ok (JVal.jbool _) =>
    match pyGet resp.body "availableBalance" with
    | Except.error e => Except.error e
    | Except.ok bal => Except.ok (0, bal)
  | Except.ok _ => Except.error PyExc.typeError

/-- Embeds `claim` (the farming claim): POST; on non-200 sleep 1s and POST
once more; then extract from the final response.  First component counts
HTTP requests issued, second is the returned pair or the raised exception. -/
def claim (r1 r2 : HttpResponse) : Nat × Except PyExc (Int × JVal) :=
  let (resp, reqs) := if r1.status ≠ 200 then (r2, 2) else (r1, 1)
  (reqs, claimExtract resp)

/-- Embeds `start` (farming start): POST; on non-200 sleep 1s and POST once
more; the body is never read.  Returns the number of HTTP requests issued. -/
def start (r1 r2 : HttpResponse) : Nat :=
  if r1.status ≠ 200 then 2 else 1

/-- Field extraction performed by `friend_balance` on a response body. -/
def friendBalanceExtract (resp : HttpResponse) : Except PyExc (JVal × JVal) :=
  match pyGet resp.body "amountForClaim" with
  | Except.error e => Except.error e
  | Except.ok claimAmount =>
    match pyGet resp.body "canClaim" with
    | Except.error e => Except.error e
    | Except.ok isAvailable => Except.ok (claimAmount, isAvailable)

/-- Embeds `friend_balance`.  The source parses the FIRST response's JSON
body and extracts both fields before it looks at the status; only then, on
non-200, does it issue the retry and re-extract from the second response.
First component counts HTTP requests issued; second is the returned pair or
the exception raised (an extraction failure on the first body propagates
before any retry). -/
def friend_balance (r1 r2 : HttpResponse) : Nat × Except PyExc (JVal × JVal) :=
  match friendBalanceExtract r1 with
  | Except.error e => (1, Except.error e)
  | Except.ok firstVals =>
    if r1.status ≠ 200 then (2, friendBalanceExtract r2)
    else (1, Except.ok firstVals)

/-- Embeds `balance`: reads `timestamp`, `playPasses` and `farming` from the
body; when the `farming` value is truthy, reads `startTime`/`endTime` from
it (Python `resp_json["farming"].get(...)`), otherwise both stay `None`;
returns each timestamp as `int(x/1000)` when the value is not `None`.
A non-dict body or a truthy non-dict `farming` raises `AttributeError`; a
non-numeric timestamp raises `TypeError`. -/
def balance (r : HttpResponse) :
    Except PyExc (Option Int × Option Int × Option Int × JVal) := do
  let timestamp ← pyGet r.body "timestamp"
  let play_passes ← pyGet r.body "playPasses"
  let farming ← pyGet r.body "farming"
  let times ←
    if pyTruthy farming then do
      let s ← pyGet farming "startTime"
      let e ← pyGet farming "endTime"
      pure (s, e)
    else
      pure (JVal.jnull, JVal.jnull)
  let nowSec ← msToSecOpt timestamp
  let startSec ← msToSecOpt times.1
  let endSec ← msToSecOpt times.2
  pure (nowSec, startSec, endSec, play_passes)

/-- Embeds `refresh`: reads `access` from the body, sets the session's
`Authorization` header to `"Bearer " + access` (raising `TypeError` when
`access` is not a string, `AttributeError` when the body is not a dict),
then stores `refresh` as the new refresh token.  On an exception the state
is unchanged (the error propagates to the caller). -/
def refresh (st : SessionState) (r : HttpResponse) : Except PyExc SessionState := do
  let access ← pyGet r.body "access"
  match access with
  | JVal.jstr a =>
    let newRefresh ← pyGet r.body "refresh"
    pure { st with authHeader := some ("Bearer " ++ a), refresh_token := newRefresh }
  | _ => Except.error PyExc.typeError

/-- Embeds `login`.  The whole body is wrapped in `try ... except: return
False`, so any exception — a transport/parse failure (modelled by the
`Except.error` input), a non-dict body, a missing or non-dict `token`
field, or a non-string `access` — yields `False`.  The header assignment
executes before the refresh-token assignment, exactly as in the source, so
a `True` return always carries both updates. -/
def login (st : SessionState) (resp : Except PyExc HttpResponse) :
    SessionState × Bool :=
  match resp with
  | Except.error _ => (st, false)
  | Except.ok r =>
    match pyGet r.body "token" with
    | Except.error _ => (st, false)
    | Except.ok tok =>
      match pyGet tok "access" with
      | Except.error _ => (st, false)
      | Except.ok (JVal.jstr a) =>
        let st1 := { st with authHeader := some ("Bearer " ++ a) }
        match pyGet tok "refresh" with
        | Except.error _ => (st1, false)
        | Except.ok newRefresh => ({ st1 with refresh_token := newRefresh }, true)
      | Except.ok _ => (st, false)

/-- Embeds `register`: after the POST, the body text is scanned for the
substring `"limit"` (raising `RefCodeError`) and then for
`"already connected"` (raising `AccountUsedError`); the HTTP status is
never consulted.  Otherwise the token is installed as in `login` but
without a surrounding `try`, so extraction failures propagate. -/
def register (st : SessionState) (r : HttpResponse) :
    Except PyExc (SessionState × Bool) :=
  if strContains r.text "limit" then Except.error PyExc.refCodeError
  else if strContains r.text "already connected" then
    Except.error PyExc.accountUsedError
  else do
    let tok ← pyGet r.body "token"
    let access ← pyGet tok "access"
    match access with
    | JVal.jstr a =>
      let newRefresh ← pyGet tok "refresh"
      pure ({ st with authHeader := some ("Bearer " ++ a), refresh_token := newRefresh }, true)
    | _ => Except.error PyExc.typeError

/-- The service's behaviour during one iteration of the `play_game` loop:
either some awaited call raises an exception (caught by the loop-level
`except`, which sleeps and continues), or the iteration runs with the given
`/game/play` response, the two scripted `/game/claim` responses (the second
consumed only when the first has non-200 status) and the pre-drawn random
point amount. -/
inductive PassEvent where
  | raise : PassEvent
  | run : HttpResponse → HttpResponse → HttpResponse → Int → PassEvent

/-- Observable state of one `play_game` run: the `play_passes` counter (a
Python int, so an `Int`), the number of `start_game` calls, the number of
`claim_game` calls, and the number of fully successful start+claim cycles
(those that decremented the counter). -/
structure PlayState where
  passes : Int
  starts : Nat
  claims : Nat
  completed : Nat
deriving Repr, DecidableEq

/-- Embeds the `play_game` loop.  `while play_passes:` exits when the
counter is exactly 0.  Each iteration: `start_game`; if the result is falsy
or equals `"cannot start game"`, `break`; otherwise `claim_game` with the
result as game id; if the message is the boolean `True`, decrement and
loop, else `break`.  An exception event leaves the counter and counts
unchanged and continues.  Returns `none` when the event script is exhausted
with the loop still running (the run extends beyond the script). -/
def play_game : List PassEvent → PlayState → Option PlayState
  | evs, st =>
    if st.passes = 0 then some st
    else
      match evs with
      | [] => none
      | PassEvent.raise :: rest => play_game rest st
      | PassEvent.run startResp claim1 claim2 pts :: rest =>
        let game_id := start_game startResp
        let st1 : PlayState := { st with starts := st.starts + 1 }
        if !pyTruthy game_id || pyEqStr game_id "cannot start game" then
          some st1
        else
          let msgPts := (claim_game pts claim1 claim2).1
          let st2 : PlayState := { st1 with claims := st1.claims + 1 }
          match msgPts.1 with
          | JVal.jbool true =>
            play_game rest
              { st2 with passes := st2.passes - 1, completed := st2.completed + 1 }
          | _ => some st2

/-- Classifies a `PassEvent` that keeps the `play_game` loop running: either
an exception (caught and retried) or a pass whose start yields a usable game
id and whose claim message is the boolean `True`. -/
def eventKeepsLooping : PassEvent → Bool
  | PassEvent.raise => true
  | PassEvent.run sr c1 c2 pts =>
    (pyTruthy (start_game sr) && !pyEqStr (start_game sr) "cannot start game") &&
      match ((claim_game pts c1 c2).1).1 with
      | JVal.jbool true => true
      | _ => false

end BlumBot

open BlumBot

/-- Lookup on a JSON object never raises: it yields the field value or the
JSON null that models Python `None`. -/
theorem pyGet_obj (fs : List (String × JVal)) (k : String) :
    pyGet (JVal.jobj fs) k = Except.ok ((jlookup fs k).getD JVal.jnull) := by
  simp [pyGet]
  cases jlookup fs k <;> simp

/-- On non-negative millisecond timestamps the truncating division performed
by `int(x/1000)` agrees with floor division. -/
theorem pyIntDivMs_eq_fdiv (x : Int) (hx : 0 ≤ x) : pyIntDivMs x = Int.fdiv x 1000 :=
  (Int.fdiv_eq_tdiv hx (by norm_num)).symm

/-- An exception event is absorbed by the loop-level handler: the loop
continues on the remaining script with an unchanged state. -/
theorem play_game_raise_step (evs : List PassEvent) (st : PlayState) (h : st.passes ≠ 0) :
    play_game (PassEvent.raise :: evs) st = play_game evs st := by
  rw [play_game.eq_def]
  simp [h]

/-- When `start_game` yields a falsy value or the `"cannot start game"`
sentinel, the loop body hits `break` before any claim: only the start count
grows and the run ends. -/
theorem play_game_break_step (evs : List PassEvent) (st : PlayState)
    (sr c1 c2 : HttpResponse) (pts : Int) (h : st.passes ≠ 0)
    (hb : pyTruthy (start_game sr) = false ∨ pyEqStr (start_game sr) "cannot start game" = true) :
    play_game (PassEvent.run sr c1 c2 pts :: evs) st = some { st with starts := st.starts + 1 } := by
  rw [play_game.eq_def]
  rcases hb with hb | hb <;> simp [h, hb]

/-- A fully successful pass (usable game id, claim message `True`)
decrements the pass counter, bumps all counts and continues the loop. -/
theorem play_game_success_step (evs : List PassEvent) (st : PlayState)
    (sr c1 c2 : HttpResponse) (pts : Int) (h : st.passes ≠ 0)
    (ht : pyTruthy (start_game sr) = true)
    (hcs : pyEqStr (start_game sr) "cannot start game" = false)
    (hm : ((claim_game pts c1 c2).1).1 = JVal.jbool true) :
    play_game (PassEvent.run sr c1 c2 pts :: evs) st =
      play_game evs { st with passes := st.passes - 1, starts := st.starts + 1,
                              claims := st.claims + 1, completed := st.completed + 1 } := by
  rw [play_game.eq_def]
  simp [h, ht, hcs, hm]

/-- A pass whose claim message is not the boolean `True` issues the claim
request and then breaks with the pass counter unchanged. -/
theorem play_game_claimfail_step (evs : List PassEvent) (st : PlayState)
    (sr c1 c2 : HttpResponse) (pts : Int) (h : st.passes ≠ 0)
    (ht : pyTruthy (start_game sr) = true)
    (hcs : pyEqStr (start_game sr) "cannot start game" = false)
    (hm : ((claim_game pts c1 c2).1).1 ≠ JVal.jbool true) :
    play_game (PassEvent.run sr c1 c2 pts :: evs) st =
      some { st with starts := st.starts + 1, claims := st.claims + 1 } := by
  rw [play_game.eq_def]
  rcases hmm : ((claim_game pts c1 c2).1).1 with _ | b | n | s | xs | l
  · simp [h, ht, hcs, hmm]
  · cases b
    · simp [h, ht, hcs, hmm]
    · exact absurd hmm hm
  · simp [h, ht, hcs, hmm]
  · simp [h, ht, hcs, hmm]
  · simp [h, ht, hcs, hmm]
  · simp [h, ht, hcs, hmm]

/-- Net bookkeeping of any terminating run: the pass counter drops by
exactly the number of completed start+claim cycles. -/
theorem play_game_net (evs : List PassEvent) :
    ∀ st fin, play_game evs st = some fin →
      st.passes - fin.passes = (fin.completed : Int) - (st.completed : Int) := by
  induction evs with
  | nil =>
    intro st fin h
    rw [play_game.eq_def] at h
    by_cases hp : st.passes = 0
    · simp [hp] at h
      subst h
      simp
    · simp [hp] at h
  | cons ev rest ih =>
    intro st fin h
    rw [play_game.eq_def] at h
    by_cases hp : st.passes = 0
    · simp [hp] at h
      subst h
      simp
    · simp only [hp, if_false] at h
      cases ev with
      | raise =>
        have := ih st fin h
        omega
      | run sr c1 c2 pts =>
        by_cases hb : (!pyTruthy (start_game sr) || pyEqStr (start_game sr) "cannot start game") = true
        · simp [hb] at h
          subst h
          simp
        · simp only [hb, if_false] at h
          rcases hm : ((claim_game pts c1 c2).1).1 with _ | b | n | s | xs | l
          · simp [hm] at h; subst h; simp
          · cases b
            · simp [hm] at h; subst h; simp
            · simp [hm] at h
              have := ih _ fin h
              simp at this ⊢
              omega
          · simp [hm] at h; subst h; simp
          · simp [hm] at h; subst h; simp
          · simp [hm] at h; subst h; simp
          · simp [hm] at h; subst h; simp

/-- C1: running `play_game` with 3 play passes against a service that always
returns a valid (truthy, non-sentinel) game id and answers every claim with
HTTP 200 and the literal text `"OK"` performs exactly 3 start/claim cycles
and ends with the pass counter at 0; against a service that signals
`"cannot start game"` on the 2nd pass, the loop stops after exactly 1
completed start/claim cycle (2 start calls, 1 claim call, 2 passes left). -/
theorem play_game_three_pass_runs (g : String) (hg : g ≠ "")
    (hcs : g ≠ "cannot start game") (pts : Int) (c : HttpResponse)
    (hst : c.status = 200) (htxt : c.text = "OK") :
    play_game (List.replicate 3
        (PassEvent.run ⟨200, JVal.jobj [("gameId", JVal.jstr g)], ""⟩ c c pts))
      ⟨3, 0, 0, 0⟩ = some ⟨0, 3, 3, 3⟩ ∧
    play_game
        [PassEvent.run ⟨200, JVal.jobj [("gameId", JVal.jstr g)], ""⟩ c c pts,
         PassEvent.run ⟨200, JVal.jobj [("message", JVal.jstr "cannot start game")], ""⟩ c c pts,
         PassEvent.run ⟨200, JVal.jobj [("gameId", JVal.jstr g)], ""⟩ c c pts]
      ⟨3, 0, 0, 0⟩ = some ⟨2, 2, 1, 1⟩ := by
  have hstart : start_game ⟨200, JVal.jobj [("gameId", JVal.jstr g)], ""⟩ = JVal.jstr g := by
    simp [start_game, jhas, pyGet, jlookup]
  have h1 : pyTruthy (start_game ⟨200, JVal.jobj [("gameId", JVal.jstr g)], ""⟩) = true := by
    simp [hstart, pyTruthy, hg]
  have h2 : pyEqStr (start_game ⟨200, JVal.jobj [("gameId", JVal.jstr g)], ""⟩)
      "cannot start game" = false := by
    simp [hstart, pyEqStr, hcs]
  have h3 : ((claim_game pts c c).1).1 = JVal.jbool true := by
    simp [claim_game, hst, htxt]
  have hmsg : start_game ⟨200, JVal.jobj [("message", JVal.jstr "cannot start game")], ""⟩ =
      JVal.jstr "cannot start game" := by
    simp [start_game, jhas, pyGet, jlookup]
  constructor
  · rw [show (3 : Nat) = 2 + 1 by rfl, List.replicate_succ,
      play_game_success_step _ _ _ _ _ _ (by decide) h1 h2 h3]
    rw [List.replicate_succ (n := 1),
      play_game_success_step _ _ _ _ _ _ (by decide) h1 h2 h3]
    rw [List.replicate_succ (n := 0),
      play_game_success_step _ _ _ _ _ _ (by decide) h1 h2 h3]
    rw [play_game.eq_def]
    simp
  · rw [play_game_success_step _ _ _ _ _ _ (by decide) h1 h2 h3]
    rw [play_game_break_step _ _ _ _ _ _ (by decide) (Or.inr (by simp [hmsg, pyEqStr]))]
    decide

/-- Witness for C1 at the game id `"g1"`, 5 points and a plain `"OK"` claim
response. -/
theorem play_game_three_pass_runs_witness :
    play_game (List.replicate 3
        (PassEvent.run ⟨200, JVal.jobj [("gameId", JVal.jstr "g1")], ""⟩
          ⟨200, JVal.jobj [], "OK"⟩ ⟨200, JVal.jobj [], "OK"⟩ 5))
      ⟨3, 0, 0, 0⟩ = some ⟨0, 3, 3, 3⟩ ∧
    play_game
        [PassEvent.run ⟨200, JVal.jobj [("gameId", JVal.jstr "g1")], ""⟩
           ⟨200, JVal.jobj [], "OK"⟩ ⟨200, JVal.jobj [], "OK"⟩ 5,
         PassEvent.run ⟨200, JVal.jobj [("message", JVal.jstr "cannot start game")], ""⟩
           ⟨200, JVal.jobj [], "OK"⟩ ⟨200, JVal.jobj [], "OK"⟩ 5,
         PassEvent.run ⟨200, JVal.jobj [("gameId", JVal.jstr "g1")], ""⟩
           ⟨200, JVal.jobj [], "OK"⟩ ⟨200, JVal.jobj [], "OK"⟩ 5]
      ⟨3, 0, 0, 0⟩ = some ⟨2, 2, 1, 1⟩ :=
  play_game_three_pass_runs "g1" (by decide) (by decide) 5
    ⟨200, JVal.jobj [], "OK"⟩ rfl rfl

/-- C2 counterexample: `friend_balance` does not retry a non-success first
response when the first body is not a JSON object — the field extraction,
which the source performs before the status check, raises first, so only 1
request is issued although the first status is 500. -/
theorem friend_balance_no_retry_cex :
    friend_balance ⟨500, JVal.jnull, ""⟩
        ⟨200, JVal.jobj [("amountForClaim", JVal.jnum 2), ("canClaim", JVal.jbool true)], ""⟩ =
      (1, Except.error PyExc.attributeError) ∧
    (500 : Nat) ≠ 200 :=
  ⟨rfl, by decide⟩

/-- C2 amended: on a non-success first status, `claim_game`, the farming
`claim` and the farming `start` always issue exactly one additional request
and take the second response as final; `friend_balance` does so provided
its first response body is a JSON object (its fields are extracted from the
first body before the status check). -/
theorem single_retry_second_attempt_final (pts : Int) (r1 r2 : HttpResponse)
    (h : r1.status ≠ 200) :
    claim_game pts r1 r2 =
      ((if r2.text == "OK" then JVal.jbool true else JVal.jstr r2.text, pts), 2) ∧
    BlumBot.claim r1 r2 = (2, claimExtract r2) ∧
    BlumBot.start r1 r2 = 2 ∧
    (∀ fs, r1.body = JVal.jobj fs → friend_balance r1 r2 = (2, friendBalanceExtract r2)) := by
  refine ⟨?_, ?_, ?_, ?_⟩
  · simp [claim_game, h]
  · simp [BlumBot.claim, h]
  · simp [BlumBot.start, h]
  · intro fs hfs
    simp [friend_balance, friendBalanceExtract, hfs, pyGet_obj, h]

/-- Witness for C2 at a 500-status first response with an object body. -/
theorem single_retry_second_attempt_final_witness :
    claim_game 5 ⟨500, JVal.jobj [], ""⟩ ⟨200, JVal.jobj [], "OK"⟩ =
      ((if ("OK" : String) == "OK" then JVal.jbool true else JVal.jstr "OK", (5 : Int)), 2) ∧
    BlumBot.claim ⟨500, JVal.jobj [], ""⟩ ⟨200, JVal.jobj [], "OK"⟩ =
      (2, claimExtract ⟨200, JVal.jobj [], "OK"⟩) ∧
    BlumBot.start ⟨500, JVal.jobj [], ""⟩ ⟨200, JVal.jobj [], "OK"⟩ = 2 ∧
    friend_balance ⟨500, JVal.jobj [], ""⟩ ⟨200, JVal.jobj [], "OK"⟩ =
      (2, friendBalanceExtract ⟨200, JVal.jobj [], "OK"⟩) := by
  obtain ⟨h1, h2, h3, h4⟩ :=
    single_retry_second_attempt_final 5 ⟨500, JVal.jobj [], ""⟩ ⟨200, JVal.jobj [], "OK"⟩
      (by decide)
  exact ⟨h1, h2, h3, h4 [] rfl⟩

/-- C3 counterexample: the upstream farming object IS present in the body
(as the empty object) yet `balance` returns `None` for both window
components, refuting that `None` occurs exactly when the farming object is
absent. -/
theorem balance_windows_cex :
    balance ⟨200, JVal.jobj [("timestamp", JVal.jnum 7000), ("farming", JVal.jobj [])], ""⟩ =
      Except.ok (some 7, none, none, JVal.jnull) ∧
    jhas (JVal.jobj [("timestamp", JVal.jnum 7000), ("farming", JVal.jobj [])]) "farming" = true :=
  ⟨rfl, rfl⟩

/-- C3 amended: `balance` returns `None` for `windowStart`/`windowEnd`
exactly when the farming value is absent, null or otherwise falsy (for
example an empty object), or when the respective `startTime`/`endTime`
field is itself absent or null inside a truthy farming object; a present
numeric field is returned as the second-precision timestamp
`floor(ms / 1000)`, and so is the now-timestamp when present. -/
theorem balance_window_timestamps (r : HttpResponse) (fs : List (String × JVal))
    (t : Int) (hb : r.body = JVal.jobj fs)
    (hts : jlookup fs "timestamp" = some (JVal.jnum t)) (h0t : 0 ≤ t) :
    (pyTruthy ((jlookup fs "farming").getD JVal.jnull) = false →
      balance r = Except.ok (some (Int.fdiv t 1000), none, none,
        (jlookup fs "playPasses").getD JVal.jnull)) ∧
    (∀ gs s e, jlookup fs "farming" = some (JVal.jobj gs) →
      pyTruthy (JVal.jobj gs) = true →
      jlookup gs "startTime" = some (JVal.jnum s) → 0 ≤ s →
      jlookup gs "endTime" = some (JVal.jnum e) → 0 ≤ e →
      balance r = Except.ok (some (Int.fdiv t 1000), some (Int.fdiv s 1000),
        some (Int.fdiv e 1000), (jlookup fs "playPasses").getD JVal.jnull)) ∧
    (∀ gs, jlookup fs "farming" = some (JVal.jobj gs) →
      pyTruthy (JVal.jobj gs) = true →
      jlookup gs "startTime" = none → jlookup gs "endTime" = none →
      balance r = Except.ok (some (Int.fdiv t 1000), none, none,
        (jlookup fs "playPasses").getD JVal.jnull)) := by
  have hdiv := pyIntDivMs_eq_fdiv t h0t
  refine ⟨?_, ?_, ?_⟩
  · intro hfarm
    simp [balance, hb, pyGet_obj, hts, hfarm, msToSecOpt, hdiv, Bind.bind, Except.bind,
      Functor.map, Except.map, pure, Except.pure]
  · intro gs s e hg htr hs h0s he h0e
    have hsd := pyIntDivMs_eq_fdiv s h0s
    have hed := pyIntDivMs_eq_fdiv e h0e
    simp [balance, hb, pyGet_obj, hts, hg, htr, hs, he, msToSecOpt, hdiv, hsd, hed,
      Bind.bind, Except.bind, Functor.map, Except.map, pure, Except.pure]
  · intro gs hg htr hs he
    simp [balance, hb, pyGet_obj, hts, hg, htr, hs, he, msToSecOpt, hdiv,
      Bind.bind, Except.bind, Functor.map, Except.map, pure, Except.pure]

/-- Witness for C3 at a body with an active two-field farming window. -/
theorem balance_window_timestamps_witness :
    balance ⟨200, JVal.jobj [("timestamp", JVal.jnum 7000),
        ("farming", JVal.jobj [("startTime", JVal.jnum 3000), ("endTime", JVal.jnum 5999)])], ""⟩ =
      Except.ok (some (Int.fdiv 7000 1000), some (Int.fdiv 3000 1000),
        some (Int.fdiv 5999 1000), JVal.jnull) :=
  (balance_window_timestamps
      ⟨200, JVal.jobj [("timestamp", JVal.jnum 7000),
        ("farming", JVal.jobj [("startTime", JVal.jnum 3000), ("endTime", JVal.jnum 5999)])], ""⟩
      [("timestamp", JVal.jnum 7000),
        ("farming", JVal.jobj [("startTime", JVal.jnum 3000), ("endTime", JVal.jnum 5999)])]
      7000 rfl rfl (by decide)).2.1
    [("startTime", JVal.jnum 3000), ("endTime", JVal.jnum 5999)] 3000 5999
    rfl rfl rfl (by decide) rfl (by decide)

/-- C4 counterexample: a response text containing BOTH substrings raises
`RefCodeError`, not `AccountUsedError`, because the source checks `limit`
first in an `elif` chain — so "contains the already-linked substring implies
`AccountUsedError`" fails on this input. -/
theorem register_both_substrings_cex :
    register ⟨none, JVal.jstr ""⟩ ⟨422, JVal.jobj [], "limit already connected"⟩ =
      Except.error PyExc.refCodeError ∧
    strContains "limit already connected" "already connected" = true :=
  ⟨rfl, rfl⟩

/-- C4 amended: regardless of the HTTP status, `register` raises
`RefCodeError` whenever the response text contains `"limit"`, and raises
`AccountUsedError` whenever the text contains `"already connected"` but not
`"limit"` (the referral-limit check takes precedence). -/
theorem register_business_errors (st : SessionState) (r : HttpResponse) :
    (strContains r.text "limit" = true →
      register st r = Except.error PyExc.refCodeError) ∧
    (strContains r.text "limit" = false →
      strContains r.text "already connected" = true →
      register st r = Except.error PyExc.accountUsedError) := by
  constructor
  · intro h
    simp [register, h]
  · intro h1 h2
    simp [register, h1, h2]

/-- Witness for C4 on a referral-limit text and an already-linked text,
both with non-success statuses. -/
theorem register_business_errors_witness :
    register ⟨none, JVal.jstr ""⟩ ⟨422, JVal.jobj [], "referral limit reached"⟩ =
      Except.error PyExc.refCodeError ∧
    register ⟨none, JVal.jstr ""⟩ ⟨500, JVal.jobj [], "account already connected"⟩ =
      Except.error PyExc.accountUsedError :=
  ⟨(register_business_errors ⟨none, JVal.jstr ""⟩
      ⟨422, JVal.jobj [], "referral limit reached"⟩).1 rfl,
   (register_business_errors ⟨none, JVal.jstr ""⟩
      ⟨500, JVal.jobj [], "account already connected"⟩).2 rfl rfl⟩

/-- C5 counterexample: `start_game` returns the textual message `"busy"`,
yet `play_game` does NOT terminate at the start step — the message is passed
to `claim_game` as the game id and a claim request is issued (final claim
count 1), because the loop only breaks on a falsy value or the exact
`"cannot start game"` string. -/
theorem play_game_message_not_break_cex :
    play_game
        [PassEvent.run ⟨200, JVal.jobj [("message", JVal.jstr "busy")], ""⟩
           ⟨200, JVal.jnull, "NO"⟩ ⟨200, JVal.jnull, "NO"⟩ 5]
        ⟨2, 0, 0, 0⟩ = some ⟨2, 1, 1, 0⟩ ∧
    jhas (JVal.jobj [("message", JVal.jstr "busy")]) "message" = true ∧
    jhas (JVal.jobj [("message", JVal.jstr "busy")]) "gameId" = false :=
  ⟨rfl, rfl, rfl⟩

/-- C5 amended: the loop terminates immediately after `start_game` — with no
claim request and all remaining passes abandoned — exactly when the
returned value is falsy or is the literal `"cannot start game"`; any other
textual message is used as the game id, so a claim request IS issued for
that pass. -/
theorem play_game_start_failure_break (evs : List PassEvent) (st : PlayState)
    (sr c1 c2 : HttpResponse) (pts : Int) (h : st.passes ≠ 0) :
    ((pyTruthy (start_game sr) = false ∨
        pyEqStr (start_game sr) "cannot start game" = true) →
      play_game (PassEvent.run sr c1 c2 pts :: evs) st =
        some { st with starts := st.starts + 1 }) ∧
    (pyTruthy (start_game sr) = true →
      pyEqStr (start_game sr) "cannot start game" = false →
      play_game (PassEvent.run sr c1 c2 pts :: evs) st =
          play_game evs { st with passes := st.passes - 1, starts := st.starts + 1,
                                  claims := st.claims + 1, completed := st.completed + 1 } ∨
        play_game (PassEvent.run sr c1 c2 pts :: evs) st =
          some { st with starts := st.starts + 1, claims := st.claims + 1 }) := by
  constructor
  · intro hb
    exact play_game_break_step evs st sr c1 c2 pts h hb
  · intro ht hcs
    by_cases hm : ((claim_game pts c1 c2).1).1 = JVal.jbool true
    · exact Or.inl (play_game_success_step evs st sr c1 c2 pts h ht hcs hm)
    · exact Or.inr (play_game_claimfail_step evs st sr c1 c2 pts h ht hcs hm)

/-- Witness for C5: the `"cannot start game"` message breaks the loop with
no claim call, and the truthy `"busy"` message leads to one of the two
claim-issuing outcomes. -/
theorem play_game_start_failure_break_witness :
    play_game
        [PassEvent.run ⟨200, JVal.jobj [("message", JVal.jstr "cannot start game")], ""⟩
           ⟨200, JVal.jnull, "NO"⟩ ⟨200, JVal.jnull, "NO"⟩ 5]
        ⟨3, 0, 0, 0⟩ = some ⟨3, 1, 0, 0⟩ ∧
    (play_game
        [PassEvent.run ⟨200, JVal.jobj [("message", JVal.jstr "busy")], ""⟩
           ⟨200, JVal.jnull, "NO"⟩ ⟨200, JVal.jnull, "NO"⟩ 5]
        ⟨3, 0, 0, 0⟩ =
      play_game []
        ⟨(3 : Int) - 1, 0 + 1, 0 + 1, 0 + 1⟩ ∨
     play_game
        [PassEvent.run ⟨200, JVal.jobj [("message", JVal.jstr "busy")], ""⟩
           ⟨200, JVal.jnull, "NO"⟩ ⟨200, JVal.jnull, "NO"⟩ 5]
        ⟨3, 0, 0, 0⟩ = some ⟨3, 0 + 1, 0 + 1, 0⟩) :=
  ⟨(play_game_start_failure_break []
      ⟨3, 0, 0, 0⟩ ⟨200, JVal.jobj [("message", JVal.jstr "cannot start game")], ""⟩
      ⟨200, JVal.jnull, "NO"⟩ ⟨200, JVal.jnull, "NO"⟩ 5 (by decide)).1 (Or.inr rfl),
   (play_game_start_failure_break []
      ⟨3, 0, 0, 0⟩ ⟨200, JVal.jobj [("message", JVal.jstr "busy")], ""⟩
      ⟨200, JVal.jnull, "NO"⟩ ⟨200, JVal.jnull, "NO"⟩ 5 (by decide)).2 rfl rfl⟩

/-- C6 counterexample: two operations raise on missing fields rather than
degrading to `None` — the farming `claim` raises `TypeError` when the
`timestamp` field is absent (`None / 1000`), and `refresh` raises
`TypeError` when the `access` field is absent (`"Bearer " + None`). -/
theorem schema_drift_raises_cex :
    BlumBot.claim ⟨200, JVal.jobj [], ""⟩ ⟨200, JVal.jobj [], ""⟩ =
      (1, Except.error PyExc.typeError) ∧
    refresh ⟨none, JVal.jstr ""⟩ ⟨200, JVal.jobj [], ""⟩ =
      Except.error PyExc.typeError :=
  ⟨rfl, rfl⟩

/-- C6 amended: only `get_tasks` degrades gracefully on schema drift (any
non-list body yields the empty task list, without raising); the farming
`claim` raises `TypeError` when the final response lacks a `timestamp`
field, and `refresh` raises `TypeError` when the response lacks an `access`
field. -/
theorem schema_drift_handling :
    (∀ r : HttpResponse, (∀ xs, r.body ≠ JVal.jarr xs) → get_tasks r = []) ∧
    (∀ (r1 r2 : HttpResponse) (fs : List (String × JVal)), r1.status = 200 →
      r1.body = JVal.jobj fs → jlookup fs "timestamp" = none →
      BlumBot.claim r1 r2 = (1, Except.error PyExc.typeError)) ∧
    (∀ (st : SessionState) (r : HttpResponse) (fs : List (String × JVal)),
      r.body = JVal.jobj fs → jlookup fs "access" = none →
      refresh st r = Except.error PyExc.typeError) := by
  refine ⟨?_, ?_, ?_⟩
  · intro r hr
    rcases hb : r.body with _ | b | n | s | xs | l
    · simp [get_tasks, hb]
    · simp [get_tasks, hb]
    · simp [get_tasks, hb]
    · simp [get_tasks, hb]
    · exact absurd hb (hr xs)
    · simp [get_tasks, hb]
  · intro r1 r2 fs hst hb hts
    simp [BlumBot.claim, claimExtract, hst, hb, pyGet_obj, hts]
  · intro st r fs hb hacc
    simp [refresh, hb, pyGet_obj, hacc, Bind.bind, Except.bind]

/-- Witness for C6 at concrete empty-object and string bodies. -/
theorem schema_drift_handling_witness :
    get_tasks ⟨200, JVal.jobj [], ""⟩ = [] ∧
    BlumBot.claim ⟨200, JVal.jobj [("availableBalance", JVal.jnum 9)], ""⟩
        ⟨200, JVal.jobj [], ""⟩ = (1, Except.error PyExc.typeError) ∧
    refresh ⟨some "Bearer old", JVal.jstr "r0"⟩ ⟨200, JVal.jobj [("refresh", JVal.jstr "r1")], ""⟩ =
      Except.error PyExc.typeError :=
  ⟨schema_drift_handling.1 ⟨200, JVal.jobj [], ""⟩ (fun xs h => by simp at h),
   schema_drift_handling.2.1 ⟨200, JVal.jobj [("availableBalance", JVal.jnum 9)], ""⟩
     ⟨200, JVal.jobj [], ""⟩ [("availableBalance", JVal.jnum 9)] rfl rfl rfl,
   schema_drift_handling.2.2 ⟨some "Bearer old", JVal.jstr "r0"⟩
     ⟨200, JVal.jobj [("refresh", JVal.jstr "r1")], ""⟩ [("refresh", JVal.jstr "r1")] rfl rfl⟩

/-- C7: `login` returns `False` on any failure — a transport/parse error, a
malformed (non-object) response, or a missing `token` field — and never
lets the exception escape; on success it returns `True`, sets the session's
`Authorization` header to `"Bearer " + access` and stores the refresh
token. -/
theorem login_result_contract :
    (∀ (st : SessionState) (e : PyExc), login st (Except.error e) = (st, false)) ∧
    (∀ (st : SessionState) (r : HttpResponse), (∀ fs, r.body ≠ JVal.jobj fs) →
      login st (Except.ok r) = (st, false)) ∧
    (∀ (st : SessionState) (r : HttpResponse) (fs : List (String × JVal)),
      r.body = JVal.jobj fs → jlookup fs "token" = none →
      login st (Except.ok r) = (st, false)) ∧
    (∀ (st : SessionState) (r : HttpResponse) (fs gs : List (String × JVal))
        (a : String) (rt : JVal),
      r.body = JVal.jobj fs → jlookup fs "token" = some (JVal.jobj gs) →
      jlookup gs "access" = some (JVal.jstr a) → jlookup gs "refresh" = some rt →
      login st (Except.ok r) = (⟨some ("Bearer " ++ a), rt⟩, true)) := by
  refine ⟨?_, ?_, ?_, ?_⟩
  · intro st e
    simp [login]
  · intro st r h
    rcases hb : r.body with _ | b | n | s | xs | fs
    · simp [login, pyGet, hb]
    · simp [login, pyGet, hb]
    · simp [login, pyGet, hb]
    · simp [login, pyGet, hb]
    · simp [login, pyGet, hb]
    · exact absurd hb (h fs)
  · intro st r fs hb htok
    simp [login, hb, pyGet_obj, htok, pyGet]
  · intro st r fs gs a rt hb htok hacc hrt
    simp [login, hb, pyGet_obj, htok, hacc, hrt]

/-- Witness for C7: a raised exception, a JSON-array body, a body without a
token field, and a well-formed token response. -/
theorem login_result_contract_witness :
    login ⟨none, JVal.jstr ""⟩ (Except.error PyExc.typeError) = (⟨none, JVal.jstr ""⟩, false) ∧
    login ⟨none, JVal.jstr ""⟩ (Except.ok ⟨200, JVal.jarr [], ""⟩) = (⟨none, JVal.jstr ""⟩, false) ∧
    login ⟨none, JVal.jstr ""⟩ (Except.ok ⟨200, JVal.jobj [], ""⟩) = (⟨none, JVal.jstr ""⟩, false) ∧
    login ⟨none, JVal.jstr ""⟩
        (Except.ok ⟨200, JVal.jobj [("token",
          JVal.jobj [("access", JVal.jstr "A"), ("refresh", JVal.jstr "R")])], ""⟩) =
      (⟨some ("Bearer " ++ "A"), JVal.jstr "R"⟩, true) :=
  ⟨login_result_contract.1 ⟨none, JVal.jstr ""⟩ PyExc.typeError,
   login_result_contract.2.1 ⟨none, JVal.jstr ""⟩ ⟨200, JVal.jarr [], ""⟩
     (fun fs => by simp),
   login_result_contract.2.2.1 ⟨none, JVal.jstr ""⟩ ⟨200, JVal.jobj [], ""⟩ [] rfl rfl,
   login_result_contract.2.2.2 ⟨none, JVal.jstr ""⟩
     ⟨200, JVal.jobj [("token",
       JVal.jobj [("access", JVal.jstr "A"), ("refresh", JVal.jstr "R")])], ""⟩
     [("token", JVal.jobj [("access", JVal.jstr "A"), ("refresh", JVal.jstr "R")])]
     [("access", JVal.jstr "A"), ("refresh", JVal.jstr "R")] "A" (JVal.jstr "R")
     rfl rfl rfl rfl⟩

/-- C8: during `play_game` the pass counter drops by exactly the number of
fully successful start+claim cycles; an exception event is caught at the
loop level and the loop continues with the same remaining pass count; a
pass whose claim message is not the boolean `True` issues its claim request
but leaves the counter unchanged. -/
theorem play_game_pass_counter_invariant :
    (∀ (evs : List PassEvent) (st : PlayState), st.passes ≠ 0 →
      play_game (PassEvent.raise :: evs) st = play_game evs st) ∧
    (∀ (evs : List PassEvent) (st fin : PlayState), play_game evs st = some fin →
      st.passes - fin.passes = (fin.completed : Int) - (st.completed : Int)) ∧
    (∀ (evs : List PassEvent) (st : PlayState) (sr c1 c2 : HttpResponse) (pts : Int),
      st.passes ≠ 0 → pyTruthy (start_game sr) = true →
      pyEqStr (start_game sr) "cannot start game" = false →
      ((claim_game pts c1 c2).1).1 ≠ JVal.jbool true →
      play_game (PassEvent.run sr c1 c2 pts :: evs) st =
        some { st with starts := st.starts + 1, claims := st.claims + 1 }) :=
  ⟨play_game_raise_step, fun evs => play_game_net evs, play_game_claimfail_step⟩

/-- Witness for C8: an exception pass preserves the state, a terminated run
balances counter drop against completed cycles, and a failed claim leaves
the counter untouched. -/
theorem play_game_pass_counter_invariant_witness :
    play_game [PassEvent.raise] ⟨1, 0, 0, 0⟩ = play_game [] ⟨1, 0, 0, 0⟩ ∧
    ((⟨3, 0, 0, 0⟩ : PlayState).passes - (⟨3, 1, 1, 0⟩ : PlayState).passes =
      (((⟨3, 1, 1, 0⟩ : PlayState).completed : Int) -
        ((⟨3, 0, 0, 0⟩ : PlayState).completed : Int))) ∧
    play_game
        [PassEvent.run ⟨200, JVal.jobj [("gameId", JVal.jstr "g1")], ""⟩
           ⟨200, JVal.jnull, "NO"⟩ ⟨200, JVal.jnull, "NO"⟩ 5]
        ⟨3, 0, 0, 0⟩ = some ⟨3, 0 + 1, 0 + 1, 0⟩ :=
  ⟨play_game_pass_counter_invariant.1 [] ⟨1, 0, 0, 0⟩ (by decide),
   play_game_pass_counter_invariant.2.1
     [PassEvent.run ⟨200, JVal.jobj [("gameId", JVal.jstr "g1")], ""⟩
        ⟨200, JVal.jnull, "NO"⟩ ⟨200, JVal.jnull, "NO"⟩ 5]
     ⟨3, 0, 0, 0⟩ ⟨3, 1, 1, 0⟩ rfl,
   play_game_pass_counter_invariant.2.2
     [] ⟨3, 0, 0, 0⟩ ⟨200, JVal.jobj [("gameId", JVal.jstr "g1")], ""⟩
     ⟨200, JVal.jnull, "NO"⟩ ⟨200, JVal.jnull, "NO"⟩ 5
     (by decide) (by decide) (by decide) (fun h => by simp [claim_game] at h)⟩

/-- C9: `login` is atomic on failure — whenever it returns `False`, the
session state (authorization header and stored refresh token) is exactly
the state before the call. -/
theorem login_atomic_on_failure (st : SessionState) (resp : Except PyExc HttpResponse)
    (h : (login st resp).2 = false) : (login st resp).1 = st := by
  cases resp with
  | error e => simp [login]
  | ok r =>
    rcases hb : r.body with _ | b | n | s | xs | fs
    · simp [login, pyGet, hb]
    · simp [login, pyGet, hb]
    · simp [login, pyGet, hb]
    · simp [login, pyGet, hb]
    · simp [login, pyGet, hb]
    · rcases htok : jlookup fs "token" with _ | tok
      · simp [login, hb, pyGet_obj, htok, pyGet]
      · rcases tok with _ | b' | n' | s' | xs' | gs
        · simp [login, hb, pyGet_obj, htok, pyGet]
        · simp [login, hb, pyGet_obj, htok, pyGet]
        · simp [login, hb, pyGet_obj, htok, pyGet]
        · simp [login, hb, pyGet_obj, htok, pyGet]
        · simp [login, hb, pyGet_obj, htok, pyGet]
        · rcases hacc : jlookup gs "access" with _ | v
          · simp [login, hb, pyGet_obj, htok, hacc]
          · rcases v with _ | b'' | n'' | s'' | xs'' | gs''
            · simp [login, hb, pyGet_obj, htok, hacc]
            · simp [login, hb, pyGet_obj, htok, hacc]
            · simp [login, hb, pyGet_obj, htok, hacc]
            · simp [login, hb, pyGet_obj, htok, hacc] at h
            · simp [login, hb, pyGet_obj, htok, hacc]
            · simp [login, hb, pyGet_obj, htok, hacc]

/-- Witness for C9 at a body whose token object lacks the access field. -/
theorem login_atomic_on_failure_witness :
    (login ⟨some "Bearer old", JVal.jstr "r0"⟩
        (Except.ok ⟨200, JVal.jobj [("token", JVal.jobj [])], ""⟩)).2 = false ∧
    (login ⟨some "Bearer old", JVal.jstr "r0"⟩
        (Except.ok ⟨200, JVal.jobj [("token", JVal.jobj [])], ""⟩)).1 =
      ⟨some "Bearer old", JVal.jstr "r0"⟩ :=
  ⟨rfl,
   login_atomic_on_failure ⟨some "Bearer old", JVal.jstr "r0"⟩
     (Except.ok ⟨200, JVal.jobj [("token", JVal.jobj [])], ""⟩) rfl⟩

/-- C10: `play_game` with 0 play passes performs no iteration and issues no
request (all counts stay 0); with a negative pass count the `while
play_passes:` test never becomes false by exhaustion — the counter is
decremented past zero, so against any script of non-breaking events the
loop consumes the whole script and is still running. -/
theorem play_game_zero_and_negative_passes :
    (∀ (evs : List PassEvent) (s c d : Nat),
      play_game evs ⟨0, s, c, d⟩ = some ⟨0, s, c, d⟩) ∧
    (∀ (evs : List PassEvent) (st : PlayState), st.passes < 0 →
      (∀ ev ∈ evs, eventKeepsLooping ev = true) → play_game evs st = none) := by
  constructor
  · intro evs s c d
    rw [play_game.eq_def]
    simp
  · intro evs
    induction evs with
    | nil =>
      intro st hneg _
      rw [play_game.eq_def]
      simp [show st.passes ≠ 0 by omega]
    | cons ev rest ih =>
      intro st hneg hall
      have hne : st.passes ≠ 0 := by omega
      have hev : eventKeepsLooping ev = true := hall ev (by simp)
      have hrest : ∀ e ∈ rest, eventKeepsLooping e = true :=
        fun e he => hall e (by simp [he])
      cases ev with
      | raise =>
        rw [play_game_raise_step rest st hne]
        exact ih st hneg hrest
      | run sr c1 c2 pts =>
        simp only [eventKeepsLooping, Bool.and_eq_true, Bool.not_eq_true'] at hev
        obtain ⟨⟨h1, h2⟩, h3⟩ := hev
        have hm : ((claim_game pts c1 c2).1).1 = JVal.jbool true := by
          rcases hmm : ((claim_game pts c1 c2).1).1 with _ | b | n | s | xs | l
          · rw [hmm] at h3; simp at h3
          · cases b
            · rw [hmm] at h3; simp at h3
            · rfl
          · rw [hmm] at h3; simp at h3
          · rw [hmm] at h3; simp at h3
          · rw [hmm] at h3; simp at h3
          · rw [hmm] at h3; simp at h3
        rw [play_game_success_step rest st sr c1 c2 pts hne h1 h2 hm]
        refine ih _ ?_ hrest
        simp
        omega

/-- Witness for C10: an empty-ish script at 0 passes, and a two-exception
script at -1 passes that is consumed without the loop ending. -/
theorem play_game_zero_and_negative_passes_witness :
    play_game [PassEvent.raise] ⟨0, 0, 0, 0⟩ = some ⟨0, 0, 0, 0⟩ ∧
    play_game [PassEvent.raise, PassEvent.raise] ⟨-1, 0, 0, 0⟩ = none :=
  ⟨play_game_zero_and_negative_passes.1 [PassEvent.raise] 0 0 0,
   play_game_zero_and_negative_passes.2 [PassEvent.raise, PassEvent.raise]
     ⟨-1, 0, 0, 0⟩ (by decide) (by decide)⟩
